import Mathlib

/-!
# Verification of the Maktab fees-management backend

Shallow embedding of `src/app.py` (a Flask + SQLAlchemy backend for tuition-fee
tracking) and proofs about its pending-fee calculator and its ledger operations.

Modelling conventions:
* Calendar dates (stored in the source as `YYYY-MM-DD` strings and parsed with
  `datetime.strptime`) are modelled as a `Date` structure of numeric fields with
  a validity predicate matching the proleptic Gregorian calendar used by Python's
  `datetime`.  Years are unbounded naturals; no claim touches the 9999-year cap.
* Monetary amounts (Python floats) are modelled as rationals `ℚ`; the only
  arithmetic performed on them in the source is one multiplication by an integer.
* `datetime.now()` is the reference date; the source reads it once at the top of
  `calculate_pending_fees`, so it is passed as an explicit parameter `today`.
* The SQLite store is a `DB` record of lists; each `db.session.commit()` of a
  route is one committed state.  Routes that commit more than once return the
  list of committed states in order, so intermediate committed states are
  observable.
-/

/-- Leap-year rule of the proleptic Gregorian calendar (Python `datetime`). -/
def isLeap (y : Nat) : Bool :=
  y % 4 == 0 && (y % 100 != 0 || y % 400 == 0)

/-- Number of days in month `m` of year `y` (months numbered 1..12). -/
def daysInMonth (y m : Nat) : Nat :=
  if m = 2 then (if isLeap y then 29 else 28)
  else if m = 4 ∨ m = 6 ∨ m = 9 ∨ m = 11 then 30
  else 31

/-- A calendar date, as carried by Python `datetime` objects. -/
structure Date where
  year : Nat
  month : Nat
  day : Nat
  deriving DecidableEq, Repr

/-- A `Date` that `datetime.strptime` could actually produce: months 1..12 and
days 1..`daysInMonth`. -/
def Date.Valid (d : Date) : Prop :=
  1 ≤ d.month ∧ d.month ≤ 12 ∧ 1 ≤ d.day ∧ d.day ≤ daysInMonth d.year d.month

instance (d : Date) : Decidable d.Valid := by
  unfold Date.Valid; infer_instance

/-- `d + timedelta(days=1)` in Python: the next calendar day. -/
def nextDay (d : Date) : Date :=
  if d.day < daysInMonth d.year d.month then ⟨d.year, d.month, d.day + 1⟩
  else if d.month < 12 then ⟨d.year, d.month + 1, 1⟩
  else ⟨d.year + 1, 1, 1⟩

/-- `app.py` lines 118-123: `start_pending_dt = paid_till_dt + timedelta(days=1)`,
then if that is not the 1st of a month, replace it by the 1st of the month after
`paid_till_dt` (rolling December into January of the next year). -/
def start_pending (paid_till : Date) : Date :=
  let s0 := nextDay paid_till
  if s0.day ≠ 1 then
    if paid_till.month = 12 then ⟨paid_till.year + 1, 1, 1⟩
    else ⟨paid_till.year, paid_till.month + 1, 1⟩
  else s0

/-- `app.py` lines 91-112 (the `latest_paid_till` absent branch): months
difference from admission month to now, the `months_diff == 0` same-month test,
and the `today.day < 1` adjustment exactly as written. -/
def caseA_pending (admission today : Date) : Int :=
  let months_diff : Int :=
    ((today.year : Int) - (admission.year : Int)) * 12 +
      ((today.month : Int) - (admission.month : Int))
  if months_diff = 0 ∧ admission.year = today.year ∧ admission.month = today.month then 0
  else
    let p := months_diff + 1
    if today.day < 1 ∧ 0 < months_diff then p - 1 else p

/-- `app.py` lines 126-131 only (the payment-exists branch BEFORE the
`today.day == 1` adjustment): zero when `start` is strictly after `today` by
(year, month), else the inclusive month distance plus one. -/
def caseB_pending_base (start today : Date) : Int :=
  if start.year > today.year ∨ (start.year = today.year ∧ start.month > today.month) then 0
  else ((today.year : Int) - (start.year : Int)) * 12 +
        ((today.month : Int) - (start.month : Int)) + 1

/-- `app.py` lines 114-137 (the payment-exists branch, complete): the base count
with the `today.day == 1` adjustment applied inside the `else` arm, with the
source's condition `paid_till_dt.month == (today.month - 1) % 12 and
paid_till_dt.year == (today.year if today.month != 1 else today.year - 1)`
translated verbatim (Python `%` on these operands agrees with `Int.emod`). -/
def caseB_pending (paid_till today : Date) : Int :=
  let start := start_pending paid_till
  if start.year > today.year ∨ (start.year = today.year ∧ start.month > today.month) then 0
  else
    let p := ((today.year : Int) - (start.year : Int)) * 12 +
              ((today.month : Int) - (start.month : Int)) + 1
    if today.day = 1 ∧ (paid_till.month : Int) = ((today.month : Int) - 1) % 12 ∧
        (paid_till.year : Int) =
          (if today.month ≠ 1 then (today.year : Int) else (today.year : Int) - 1) then
      p - 1
    else p

/-- `app.py` lines 87-140, `calculate_pending_fees`: returns
`(pending_months, pending_amount)` with
`pending_amount = student_monthly_fee * pending_months if pending_months > 0 else 0`. -/
def calculate_pending_fees (student_monthly_fee : ℚ) (admission_date : Date)
    (latest_paid_till : Option Date) (today : Date) : Int × ℚ :=
  let pending_months :=
    match latest_paid_till with
    | none => caseA_pending admission_date today
    | some paid_till => caseB_pending paid_till today
  (pending_months,
    if 0 < pending_months then student_monthly_fee * (pending_months : ℚ) else 0)

/-- Following the spec's words (§4.1 Case B): the first day of the calendar
month immediately after the month containing `d`, depending only on `d`'s
year and month. -/
def firstOfNextMonthSpec (d : Date) : Date :=
  if d.month = 12 then ⟨d.year + 1, 1, 1⟩ else ⟨d.year, d.month + 1, 1⟩

/-- The `Student` table (app.py lines 28-42).  `admission_date` is stored in the
source as a `YYYY-MM-DD` string; it is carried here as a parsed `Date`. -/
structure Student where
  id : Nat
  name : String
  address : Option String
  phone : Option String
  admission_date : Date
  admission_cancel_date : Option Date
  monthly_fee : ℚ
  deriving DecidableEq, Repr

/-- The `Payment` table (app.py lines 68-81). -/
structure Payment where
  id : Nat
  student_id : Nat
  paid_till : Date
  deriving DecidableEq, Repr

/-- The SQLite store: both tables plus the autoincrement counters that assign
primary keys.  Each `db.session.commit()` produces one value of this type. -/
structure DB where
  students : List Student
  payments : List Payment
  nextSid : Nat
  nextPid : Nat
  deriving DecidableEq, Repr

/-- A date-valued JSON field as the routes observe it: absent or empty (falsy,
so it fails the `all([...])` presence check), present but rejected by
`datetime.strptime(_, '%Y-%m-%d')`, or parsing to a calendar date.  The
string-to-date parsing itself is the abstracted request boundary. -/
inductive RawField (α : Type) where
  | missing : RawField α
  | malformed : RawField α
  | parsed : α → RawField α
  deriving DecidableEq, Repr

/-- Python truthiness of a raw field inside `all([...])`: anything present
(even a malformed nonempty string) is truthy. -/
def RawField.truthy : RawField α → Bool
  | .missing => false
  | _ => true

/-- Python truthiness of the `name` field: `None` and the empty string are
falsy. -/
def nameTruthy : Option String → Bool
  | none => false
  | some s => s != ""

/-- The JSON body of `POST /students` (app.py lines 250-256).  `monthly_fee`
is modelled as an already-converted number; `float(...)` conversion failure is
subsumed by the same 400 response as a malformed date. -/
structure AddStudentRequest where
  name : Option String
  address : Option String
  phone : Option String
  admission_date : RawField Date
  initial_paid_till : RawField Date
  monthly_fee : Option ℚ
  deriving DecidableEq, Repr

/-- Responses of `add_student`: the 400 missing-fields error (line 259), the
400 invalid-format error (line 267), or 201 with the created student. -/
inductive AddResult where
  | missingFields : AddResult
  | invalidInput : AddResult
  | created : Student → AddResult
  deriving DecidableEq, Repr

/-- Whether an `add_student` response is one of the error responses. -/
def AddResult.isError : AddResult → Bool
  | .created _ => false
  | _ => true

/-- `app.py` lines 248-284, `add_student`: validate presence of the required
fields, validate both date formats, then `db.session.add(new_student)` and
`db.session.commit()` (first committed state, done "to get the new student's
ID"), then add the seed `Payment` and commit again (second committed state).
The returned list holds the committed states in order. -/
def add_student (db : DB) (req : AddStudentRequest) : List DB × AddResult :=
  if ¬ (nameTruthy req.name = true ∧ req.admission_date.truthy = true ∧
      req.initial_paid_till.truthy = true ∧ req.monthly_fee.isSome = true) then
    ([], .missingFields)
  else
    match req.monthly_fee, req.admission_date, req.initial_paid_till with
    | some fee, .parsed ad, .parsed pd =>
      let s : Student := ⟨db.nextSid, req.name.getD "", req.address, req.phone, ad, none, fee⟩
      let db1 : DB := ⟨db.students ++ [s], db.payments, db.nextSid + 1, db.nextPid⟩
      let p : Payment := ⟨db.nextPid, s.id, pd⟩
      let db2 : DB := ⟨db1.students, db1.payments ++ [p], db1.nextSid, db1.nextPid + 1⟩
      ([db1, db2], .created s)
    | _, _, _ => ([], .invalidInput)

/-- Default admin password (app.py line 25; overridable by environment). -/
def ADMIN_PASSWORD : String := "password"

/-- Responses of `delete_student`: 401 on wrong confirmation password, 404 when
the id does not exist, or 200. -/
inductive DeleteResult where
  | wrongPassword : DeleteResult
  | studentNotFound : DeleteResult
  | deleted : DeleteResult
  deriving DecidableEq, Repr

/-- `app.py` lines 286-301, `delete_student`: confirm the password, look the
student up by primary key, then `db.session.delete(student)`; the
`cascade="all, delete-orphan"` declaration on `Student.payments` (line 39)
removes every payment row of that student in the same commit.  Primary-key
uniqueness makes deletion of the found row equal to filtering by id. -/
def delete_student (db : DB) (student_id : Nat) (password : Option String) : DB × DeleteResult :=
  if password ≠ some ADMIN_PASSWORD then (db, .wrongPassword)
  else
    match db.students.find? (fun s => s.id == student_id) with
    | none => (db, .studentNotFound)
    | some _ =>
      (⟨db.students.filter (fun s => s.id != student_id),
        db.payments.filter (fun p => p.student_id != student_id),
        db.nextSid, db.nextPid⟩, .deleted)

/-- Responses of `update_student_payment`: 404, 400 missing `paid_till`,
400 invalid date format, or 200 with the new payment. -/
inductive PayResult where
  | studentNotFound : PayResult
  | missingPaidTill : PayResult
  | invalidDate : PayResult
  | updated : Payment → PayResult
  deriving DecidableEq, Repr

/-- Whether an `update_student_payment` response is one of the error
responses. -/
def PayResult.isError : PayResult → Bool
  | .updated _ => false
  | _ => true

/-- `app.py` lines 337-359, `update_student_payment` (the record-payment
route): look the student up, validate `paid_till`, then append one new
`Payment` row and commit once. -/
def update_student_payment (db : DB) (student_id : Nat) (paid_till : RawField Date) :
    DB × PayResult :=
  match db.students.find? (fun s => s.id == student_id) with
  | none => (db, .studentNotFound)
  | some s =>
    match paid_till with
    | .missing => (db, .missingPaidTill)
    | .malformed => (db, .invalidDate)
    | .parsed d =>
      let p : Payment := ⟨db.nextPid, s.id, d⟩
      (⟨db.students, db.payments ++ [p], db.nextSid, db.nextPid + 1⟩, .updated p)

/-- Strict order on dates, matching lexicographic order of their `YYYY-MM-DD`
string representations (the order SQLAlchemy's `desc(Payment.paid_till)`
sorts by). -/
def dateLt (a b : Date) : Bool :=
  a.year < b.year ||
    (a.year == b.year && (a.month < b.month || (a.month == b.month && a.day < b.day)))

/-- `self.payments[0].paid_till` of app.py lines 45-49: the student's payments
ordered by `paid_till` descending, so the first one carries the maximum
`paid_till`; `none` when the student has no payments. -/
def latestPaidTill (db : DB) (sid : Nat) : Option Date :=
  (db.payments.filter (fun p => p.student_id == sid)).foldl
    (fun acc p =>
      match acc with
      | none => some p.paid_till
      | some d => if dateLt d p.paid_till then some p.paid_till else some d)
    none

/-- The composite dictionary returned by `Student.to_dict` (app.py lines
54-65). -/
structure StudentView where
  id : Nat
  name : String
  address : Option String
  phone : Option String
  admission_date : Date
  admission_cancel_date : Option Date
  monthly_fee : ℚ
  paid_till : Option Date
  pending_months : Int
  pending_amount : ℚ
  deriving DecidableEq, Repr

/-- `app.py` lines 44-65, `Student.to_dict`: resolve the latest paid-till from
the student's own payment rows, run the calculator against the reference date,
and assemble the view. -/
def Student.to_dict (s : Student) (db : DB) (today : Date) : StudentView :=
  let latest := latestPaidTill db s.id
  let r := calculate_pending_fees s.monthly_fee s.admission_date latest today
  ⟨s.id, s.name, s.address, s.phone, s.admission_date, s.admission_cancel_date,
    s.monthly_fee, latest, r.1, r.2⟩

/-- `app.py` lines 303-311, `get_pending_students`: iterate over all students
in listing order and keep the views whose `pending_amount` is truthy and
strictly positive (`if s_dict['pending_amount'] and s_dict['pending_amount'] > 0`). -/
def get_pending_students (db : DB) (today : Date) : List StudentView :=
  db.students.foldl
    (fun acc s =>
      let v := s.to_dict db today
      if v.pending_amount ≠ 0 ∧ 0 < v.pending_amount then acc ++ [v] else acc)
    []

/-- The condition under which `add_student` performs no validation early
return: required fields present (truthy) and both dates parse. -/
def addRequestValid (req : AddStudentRequest) : Prop :=
  nameTruthy req.name = true ∧ req.monthly_fee.isSome = true ∧
    (∃ d, req.admission_date = RawField.parsed d) ∧
    (∃ d, req.initial_paid_till = RawField.parsed d)

/-- The condition under which `update_student_payment` performs no validation
early return: the student id exists and `paid_till` parses. -/
def payRequestValid (db : DB) (student_id : Nat) (paid_till : RawField Date) : Prop :=
  (db.students.find? (fun s => s.id == student_id)).isSome = true ∧
    ∃ d, paid_till = RawField.parsed d

example : calculate_pending_fees 1500 ⟨2023, 1, 10⟩ (some ⟨2024, 6, 30⟩) ⟨2024, 7, 15⟩
    = (1, 1500) := by
  norm_num [calculate_pending_fees, caseB_pending, start_pending, nextDay, daysInMonth, isLeap]

example : calculate_pending_fees 1200 ⟨2023, 3, 1⟩ (some ⟨2023, 7, 31⟩) ⟨2024, 7, 15⟩
    = (12, 14400) := by
  norm_num [calculate_pending_fees, caseB_pending, start_pending, nextDay, daysInMonth, isLeap]

example : calculate_pending_fees 2500 ⟨2024, 6, 15⟩ none ⟨2024, 6, 20⟩ = (0, 0) := by
  norm_num [calculate_pending_fees, caseA_pending]

example : calculate_pending_fees 2500 ⟨2024, 6, 15⟩ none ⟨2024, 8, 1⟩ = (3, 7500) := by
  norm_num [calculate_pending_fees, caseA_pending]

theorem calculate_pending_fees_fst_none (fee : ℚ) (adm today : Date) :
    (calculate_pending_fees fee adm none today).1 = caseA_pending adm today := rfl

theorem calculate_pending_fees_fst_some (fee : ℚ) (adm paid today : Date) :
    (calculate_pending_fees fee adm (some paid) today).1 = caseB_pending paid today := rfl

theorem calculate_pending_fees_snd (fee : ℚ) (adm : Date) (latest : Option Date) (today : Date) :
    (calculate_pending_fees fee adm latest today).2 =
      if 0 < (calculate_pending_fees fee adm latest today).1 then
        fee * ((calculate_pending_fees fee adm latest today).1 : ℚ)
      else 0 := by
  cases latest <;> rfl

/-- For a valid `paid_till`, the `+ timedelta(days=1)` construction of lines
118-123 always lands on the first day of the month after `paid_till`'s month,
whatever `paid_till`'s day-of-month is. -/
theorem start_pending_eq (paid : Date) (hp : paid.Valid) :
    start_pending paid = firstOfNextMonthSpec paid := by
  obtain ⟨h1, h2, h3, h4⟩ := hp
  by_cases hlt : paid.day < daysInMonth paid.year paid.month
  · have hnd : nextDay paid = ⟨paid.year, paid.month, paid.day + 1⟩ := by
      simp [nextDay, hlt]
    have hne : paid.day + 1 ≠ 1 := by omega
    simp [start_pending, hnd, hne, firstOfNextMonthSpec]
  · by_cases hm : paid.month < 12
    · have hnd : nextDay paid = ⟨paid.year, paid.month + 1, 1⟩ := by
        simp [nextDay, hlt, hm]
      have hm12 : paid.month ≠ 12 := by omega
      simp [start_pending, hnd, firstOfNextMonthSpec, hm12]
    · have hm12 : paid.month = 12 := by omega
      have hnd : nextDay paid = ⟨paid.year + 1, 1, 1⟩ := by
        simp [nextDay, hlt, hm]
      simp [start_pending, hnd, firstOfNextMonthSpec, hm12]

/-- C1.  Case A (no payment recorded): for every valid monthly fee, admission
date and reference date with `latest_paid_till` absent, `calculate_pending_fees`
returns `pending_months = 0` when the admission (year, month) equals the
reference (year, month) and otherwise
`(ref.year - adm.year)*12 + (ref.month - adm.month) + 1`; the `today.day < 1`
adjustment of this branch never fires (the right-hand side carries no `- 1`). -/
theorem claim_C1 (fee : ℚ) (admission today : Date)
    (ha : admission.Valid) (ht : today.Valid) :
    (calculate_pending_fees fee admission none today).1 =
      if admission.year = today.year ∧ admission.month = today.month then 0
      else ((today.year : Int) - (admission.year : Int)) * 12 +
            ((today.month : Int) - (admission.month : Int)) + 1 := by
  obtain ⟨ha1, ha2, ha3, ha4⟩ := ha
  obtain ⟨ht1, ht2, ht3, ht4⟩ := ht
  rw [calculate_pending_fees_fst_none]
  simp only [caseA_pending]
  split_ifs <;> omega

/-- Closed witness for C1: fee 1500, admitted 2023-01-10, reference 2024-07-15,
no payment: 19 months pending (Jan 2023 through Jul 2024). -/
theorem claim_C1_witness :
    (calculate_pending_fees 1500 ⟨2023, 1, 10⟩ none ⟨2024, 7, 15⟩).1 = 19 := by
  have h := claim_C1 1500 ⟨2023, 1, 10⟩ ⟨2024, 7, 15⟩ (by decide) (by decide)
  norm_num at h
  exact h

/-- C2.  Case B before the day==1 adjustment: `start_pending` is the first day
of the month after the month of `latest_paid_till` (independent of its
day-of-month), and the pre-adjustment pending count is 0 when that month is
strictly after the reference (year, month) and the inclusive month distance
plus one otherwise.  The third conjunct ties the base count into the full
branch: whenever the reference day is not 1, the branch returns exactly it. -/
theorem claim_C2 (paid today : Date) (hp : paid.Valid) (ht : today.Valid) :
    start_pending paid = firstOfNextMonthSpec paid ∧
    caseB_pending_base (start_pending paid) today =
      (if (firstOfNextMonthSpec paid).year > today.year ∨
          ((firstOfNextMonthSpec paid).year = today.year ∧
            (firstOfNextMonthSpec paid).month > today.month) then 0
      else ((today.year : Int) - ((firstOfNextMonthSpec paid).year : Int)) * 12 +
            ((today.month : Int) - ((firstOfNextMonthSpec paid).month : Int)) + 1) ∧
    (today.day ≠ 1 →
      caseB_pending paid today = caseB_pending_base (start_pending paid) today) := by
  refine ⟨start_pending_eq paid hp, ?_, ?_⟩
  · rw [start_pending_eq paid hp]
    rfl
  · intro hd
    simp only [caseB_pending, caseB_pending_base]
    split_ifs <;> omega

/-- Closed witness for C2: paid till 2024-05-31, reference 2024-07-15:
start_pending is 2024-06-01 and two months (June, July) are pending. -/
theorem claim_C2_witness :
    start_pending ⟨2024, 5, 31⟩ = ⟨2024, 6, 1⟩ ∧
    caseB_pending_base (start_pending ⟨2024, 5, 31⟩) ⟨2024, 7, 15⟩ = 2 ∧
    caseB_pending ⟨2024, 5, 31⟩ ⟨2024, 7, 15⟩ = caseB_pending_base (start_pending ⟨2024, 5, 31⟩) ⟨2024, 7, 15⟩ := by
  have h := claim_C2 ⟨2024, 5, 31⟩ ⟨2024, 7, 15⟩ (by decide) (by decide)
  obtain ⟨h1, h2, h3⟩ := h
  refine ⟨by rw [h1]; rfl, ?_, h3 (by decide)⟩
  rw [h2]
  norm_num [firstOfNextMonthSpec]

/-- Counterexample to C3 as stated: reference 2025-01-01 (a 1st of January) with
`latest_paid_till` 2024-12-15 in the immediately preceding month.  The Case B
formula gives 1 pending month and the claim demands the adjustment subtract one
(yielding 0), but the source's condition compares `paid_till_dt.month` (12) with
`(today.month - 1) % 12` (which is 0 for January), so nothing is subtracted and
the function returns 1. -/
theorem claim_C3_cex :
    (calculate_pending_fees 100 ⟨2024, 6, 15⟩ (some ⟨2024, 12, 15⟩) ⟨2025, 1, 1⟩).1 = 1 ∧
    caseB_pending_base (start_pending ⟨2024, 12, 15⟩) ⟨2025, 1, 1⟩ = 1 ∧
    (1 : Int) ≠ 1 - 1 := by
  refine ⟨?_, by decide, by decide⟩
  rw [calculate_pending_fees_fst_some]
  decide

/-- C3 amended.  The day==1 adjustment of the payment-exists branch fires
exactly when the reference day is 1, the reference month is at least February,
and `latest_paid_till` lies in the immediately preceding month of the same
year; in particular it never fires for a January reference (December preceding
January does not trigger it).  When it fires it subtracts exactly one from the
Case B base count. -/
theorem claim_C3 (fee : ℚ) (admission paid today : Date)
    (hp : paid.Valid) (ht : today.Valid) (hd : today.day = 1) :
    (calculate_pending_fees fee admission (some paid) today).1 =
      if 2 ≤ today.month ∧ paid.month + 1 = today.month ∧ paid.year = today.year then
        caseB_pending_base (start_pending paid) today - 1
      else caseB_pending_base (start_pending paid) today := by
  obtain ⟨hp1, hp2, hp3, hp4⟩ := hp
  obtain ⟨ht1, ht2, ht3, ht4⟩ := ht
  rw [calculate_pending_fees_fst_some]
  simp only [caseB_pending, caseB_pending_base,
    start_pending_eq paid ⟨hp1, hp2, hp3, hp4⟩]
  by_cases hm : paid.month = 12
  · simp only [firstOfNextMonthSpec, hm, if_pos]
    split_ifs <;> omega
  · simp only [firstOfNextMonthSpec, hm, if_neg, ite_false]
    split_ifs <;> omega

/-- Closed witness for C3 amended: paid till 2024-06-30, reference 2024-07-01:
the adjustment fires and the single pending month (July) is not counted. -/
theorem claim_C3_witness :
    (calculate_pending_fees 100 ⟨2023, 1, 1⟩ (some ⟨2024, 6, 30⟩) ⟨2024, 7, 1⟩).1 = 0 := by
  have h := claim_C3 100 ⟨2023, 1, 1⟩ ⟨2024, 6, 30⟩ ⟨2024, 7, 1⟩ (by decide) (by decide) rfl
  norm_num at h
  rw [h]
  decide

/-- Counterexample to C4 as stated: admission 2025-01-15 is a valid calendar
date lying after the reference 2024-06-10, the fee 1 is non-negative and no
payment is recorded, yet `calculate_pending_fees` returns
`pending_months = -6` (negative) with `pending_amount = 0 ≠ 1 * (-6)`. -/
theorem claim_C4_cex :
    calculate_pending_fees 1 ⟨2025, 1, 15⟩ none ⟨2024, 6, 10⟩ = (-6, 0) ∧
    ¬ (0 ≤ (-6 : Int)) ∧ (0 : ℚ) ≠ 1 * ((-6 : Int) : ℚ) := by
  refine ⟨?_, by decide, by norm_num⟩
  norm_num [calculate_pending_fees, caseA_pending]

/-- C4 amended.  The output contract holds on the domain the no-payment branch
is designed for: whenever `latest_paid_till` is absent the admission
(year, month) must not lie after the reference (year, month).  Under that
restriction (and unconditionally when a payment exists) `pending_months` is a
non-negative integer, `pending_amount` is non-negative, and
`pending_amount = monthly_fee * pending_months`. -/
theorem claim_C4 (fee : ℚ) (admission today : Date) (latest : Option Date)
    (hfee : 0 ≤ fee) (ha : admission.Valid) (ht : today.Valid)
    (hl : ∀ d, latest = some d → d.Valid)
    (hadm : latest = none →
      admission.year < today.year ∨
        (admission.year = today.year ∧ admission.month ≤ today.month)) :
    0 ≤ (calculate_pending_fees fee admission latest today).1 ∧
    0 ≤ (calculate_pending_fees fee admission latest today).2 ∧
    (calculate_pending_fees fee admission latest today).2 =
      fee * ((calculate_pending_fees fee admission latest today).1 : ℚ) := by
  obtain ⟨ha1, ha2, ha3, ha4⟩ := ha
  obtain ⟨ht1, ht2, ht3, ht4⟩ := ht
  have hm : 0 ≤ (calculate_pending_fees fee admission latest today).1 := by
    cases latest with
    | none =>
      have hle := hadm rfl
      rw [calculate_pending_fees_fst_none]
      simp only [caseA_pending]
      split_ifs <;> omega
    | some paid =>
      obtain ⟨hp1, hp2, hp3, hp4⟩ := hl paid rfl
      rw [calculate_pending_fees_fst_some]
      simp only [caseB_pending, start_pending_eq paid ⟨hp1, hp2, hp3, hp4⟩]
      by_cases hm12 : paid.month = 12
      · simp only [firstOfNextMonthSpec, hm12, if_pos]
        split_ifs <;> omega
      · simp only [firstOfNextMonthSpec, hm12, if_neg, ite_false]
        split_ifs <;> omega
  refine ⟨hm, ?_, ?_⟩
  · rw [calculate_pending_fees_snd]
    split_ifs with h
    · exact mul_nonneg hfee (by exact_mod_cast hm)
    · exact le_refl 0
  · rw [calculate_pending_fees_snd]
    split_ifs with h
    · rfl
    · have hx : (calculate_pending_fees fee admission latest today).1 = 0 := by omega
      rw [hx]
      norm_num

/-- Closed witness for C4 amended: fee 3/2, admission 2024-01-05, paid till
2024-03-31, reference 2024-05-02 (two pending months, amount 3). -/
theorem claim_C4_witness :
    0 ≤ (calculate_pending_fees (3 / 2) ⟨2024, 1, 5⟩ (some ⟨2024, 3, 31⟩) ⟨2024, 5, 2⟩).1 ∧
    0 ≤ (calculate_pending_fees (3 / 2) ⟨2024, 1, 5⟩ (some ⟨2024, 3, 31⟩) ⟨2024, 5, 2⟩).2 ∧
    (calculate_pending_fees (3 / 2) ⟨2024, 1, 5⟩ (some ⟨2024, 3, 31⟩) ⟨2024, 5, 2⟩).2 =
      (3 / 2) * (((calculate_pending_fees (3 / 2) ⟨2024, 1, 5⟩
        (some ⟨2024, 3, 31⟩) ⟨2024, 5, 2⟩).1 : Int) : ℚ) :=
  claim_C4 (3 / 2) ⟨2024, 1, 5⟩ ⟨2024, 5, 2⟩ (some ⟨2024, 3, 31⟩) (by norm_num)
    (by decide) (by decide)
    (by intro d hd; injection hd with h; subst h; decide)
    (fun h => Option.noConfusion h)

/-- Counterexample to C5 as stated: running `add_student` on an empty store
with a fully valid request produces TWO committed states; in the first
(committed by line 277 "to get the new student's ID") the student with id 0
exists while the payment table is still empty, so there IS a reachable
intermediate committed state in which the Student exists without its seed
Payment. -/
theorem claim_C5_cex :
    ((add_student ⟨[], [], 0, 0⟩
        ⟨some "A", none, none, RawField.parsed ⟨2024, 1, 10⟩,
          RawField.parsed ⟨2024, 1, 31⟩, some 100⟩).1.map
      (fun st => (st.students.map Student.id, st.payments.map Payment.student_id)))
      = [([0], []), ([0], [0])] ∧
    ¬ (∀ st ∈ (add_student ⟨[], [], 0, 0⟩
        ⟨some "A", none, none, RawField.parsed ⟨2024, 1, 10⟩,
          RawField.parsed ⟨2024, 1, 31⟩, some 100⟩).1,
        ∀ s ∈ st.students, ∃ p ∈ st.payments, p.student_id = s.id) := by
  constructor
  · decide
  · decide

/-- C5 amended.  `add_student` on a valid request is not atomic: it commits
twice.  The first committed state contains the new Student and the unchanged
payment table (no seed Payment yet); the second adds the seed Payment.  After
successful completion every student created through this route has its seed
payment. -/
theorem claim_C5 (db : DB) (req : AddStudentRequest) (fee : ℚ) (ad pd : Date)
    (hname : nameTruthy req.name = true)
    (hfee : req.monthly_fee = some fee)
    (had : req.admission_date = RawField.parsed ad)
    (hpd : req.initial_paid_till = RawField.parsed pd) :
    add_student db req =
      ([⟨db.students ++ [⟨db.nextSid, req.name.getD "", req.address, req.phone, ad, none, fee⟩],
          db.payments, db.nextSid + 1, db.nextPid⟩,
        ⟨db.students ++ [⟨db.nextSid, req.name.getD "", req.address, req.phone, ad, none, fee⟩],
          db.payments ++ [⟨db.nextPid, db.nextSid, pd⟩], db.nextSid + 1, db.nextPid + 1⟩],
       AddResult.created ⟨db.nextSid, req.name.getD "", req.address, req.phone, ad, none, fee⟩) := by
  simp only [add_student, hfee, had, hpd, RawField.truthy, hname, Option.isSome_some]
  norm_num

/-- Closed witness for C5 amended: a concrete request against a store with
counters 5 and 7 commits the student alone, then student plus seed payment. -/
theorem claim_C5_witness :
    add_student ⟨[], [], 5, 7⟩
        ⟨some "B", some "addr", none, RawField.parsed ⟨2024, 2, 5⟩,
          RawField.parsed ⟨2024, 2, 29⟩, some 50⟩ =
      ([⟨[⟨5, "B", some "addr", none, ⟨2024, 2, 5⟩, none, 50⟩], [], 6, 7⟩,
        ⟨[⟨5, "B", some "addr", none, ⟨2024, 2, 5⟩, none, 50⟩],
          [⟨7, 5, ⟨2024, 2, 29⟩⟩], 6, 8⟩],
       AddResult.created ⟨5, "B", some "addr", none, ⟨2024, 2, 5⟩, none, 50⟩) :=
  claim_C5 ⟨[], [], 5, 7⟩
    ⟨some "B", some "addr", none, RawField.parsed ⟨2024, 2, 5⟩,
      RawField.parsed ⟨2024, 2, 29⟩, some 50⟩ 50 ⟨2024, 2, 5⟩ ⟨2024, 2, 29⟩
    (by decide) rfl rfl rfl

/-- Refiltering the payments that survived a cascade delete for the deleted
student's id yields nothing. -/
theorem filter_ne_filter_eq_nil (l : List Payment) (sid : Nat) :
    (l.filter (fun p => p.student_id != sid)).filter (fun p => p.student_id == sid) = [] := by
  induction l with
  | nil => rfl
  | cons a t ih => by_cases hc : a.student_id = sid <;> simp [hc, ih]

/-- C6.  With the admin password supplied, `delete_student` on an existing id
removes that student and every payment row owned by it (a post-delete query
for the student's payments returns none) and keeps all other students and
payments (the filters retain every row with a different id, in order); on a
missing id it reports `studentNotFound` and leaves the store unchanged. -/
theorem claim_C6 (db : DB) (sid : Nat) :
    ((db.students.find? (fun s => s.id == sid)).isSome = true →
      (delete_student db sid (some ADMIN_PASSWORD)).1.students =
          db.students.filter (fun s => s.id != sid) ∧
      (delete_student db sid (some ADMIN_PASSWORD)).1.payments =
          db.payments.filter (fun p => p.student_id != sid) ∧
      ((delete_student db sid (some ADMIN_PASSWORD)).1.payments.filter
          (fun p => p.student_id == sid)) = [] ∧
      (delete_student db sid (some ADMIN_PASSWORD)).2 = DeleteResult.deleted) ∧
    ((db.students.find? (fun s => s.id == sid)).isSome = false →
      delete_student db sid (some ADMIN_PASSWORD) = (db, DeleteResult.studentNotFound)) := by
  have hpw : ¬ (some ADMIN_PASSWORD ≠ some ADMIN_PASSWORD) := by simp
  cases hfind : db.students.find? (fun s => s.id == sid) with
  | none =>
    refine ⟨fun h => ?_, fun _ => ?_⟩
    · simp at h
    · simp only [delete_student, if_neg hpw, hfind]
  | some s =>
    refine ⟨fun _ => ?_, fun h => ?_⟩
    · simp only [delete_student, if_neg hpw, hfind]
      exact ⟨trivial, trivial, filter_ne_filter_eq_nil db.payments sid, trivial⟩
    · simp at h

/-- Closed witness for C6: deleting student 0 from a store holding student 0
with one payment, plus an unrelated payment row for id 3, removes exactly
student 0 and its payment and reports success. -/
theorem claim_C6_witness :
    (delete_student ⟨[⟨0, "A", none, none, ⟨2024, 1, 1⟩, none, 10⟩],
        [⟨0, 0, ⟨2024, 1, 31⟩⟩, ⟨1, 3, ⟨2024, 2, 29⟩⟩], 1, 2⟩ 0
        (some ADMIN_PASSWORD)).1.students =
      (⟨[⟨0, "A", none, none, ⟨2024, 1, 1⟩, none, 10⟩],
        [⟨0, 0, ⟨2024, 1, 31⟩⟩, ⟨1, 3, ⟨2024, 2, 29⟩⟩], 1, 2⟩ : DB).students.filter
        (fun s => s.id != 0) ∧
    (delete_student ⟨[⟨0, "A", none, none, ⟨2024, 1, 1⟩, none, 10⟩],
        [⟨0, 0, ⟨2024, 1, 31⟩⟩, ⟨1, 3, ⟨2024, 2, 29⟩⟩], 1, 2⟩ 0
        (some ADMIN_PASSWORD)).1.payments =
      (⟨[⟨0, "A", none, none, ⟨2024, 1, 1⟩, none, 10⟩],
        [⟨0, 0, ⟨2024, 1, 31⟩⟩, ⟨1, 3, ⟨2024, 2, 29⟩⟩], 1, 2⟩ : DB).payments.filter
        (fun p => p.student_id != 0) ∧
    ((delete_student ⟨[⟨0, "A", none, none, ⟨2024, 1, 1⟩, none, 10⟩],
        [⟨0, 0, ⟨2024, 1, 31⟩⟩, ⟨1, 3, ⟨2024, 2, 29⟩⟩], 1, 2⟩ 0
        (some ADMIN_PASSWORD)).1.payments.filter (fun p => p.student_id == 0)) = [] ∧
    (delete_student ⟨[⟨0, "A", none, none, ⟨2024, 1, 1⟩, none, 10⟩],
        [⟨0, 0, ⟨2024, 1, 31⟩⟩, ⟨1, 3, ⟨2024, 2, 29⟩⟩], 1, 2⟩ 0
        (some ADMIN_PASSWORD)).2 = DeleteResult.deleted :=
  (claim_C6 ⟨[⟨0, "A", none, none, ⟨2024, 1, 1⟩, none, 10⟩],
      [⟨0, 0, ⟨2024, 1, 31⟩⟩, ⟨1, 3, ⟨2024, 2, 29⟩⟩], 1, 2⟩ 0).1 (by decide)

/-- C7.  On every validation failure of `add_student` (missing field or
unparseable date) nothing is committed ([] committed states) and the response
is an error; on every validation failure of `update_student_payment` (unknown
student id, missing or unparseable `paid_till`) the store is returned
unchanged and the response is an error. -/
theorem claim_C7 (db : DB) (req : AddStudentRequest) (sid : Nat) (pt : RawField Date) :
    (¬ addRequestValid req →
      (add_student db req).1 = [] ∧ (add_student db req).2.isError = true) ∧
    (¬ payRequestValid db sid pt →
      (update_student_payment db sid pt).1 = db ∧
        (update_student_payment db sid pt).2.isError = true) := by
  constructor
  · intro hinv
    obtain ⟨n, a, ph, adf, ptf, mf⟩ := req
    by_cases hn : nameTruthy n = true <;> cases mf <;> cases adf <;> cases ptf <;>
      simp_all [add_student, addRequestValid, RawField.truthy, AddResult.isError]
  · intro hinv
    simp only [payRequestValid] at hinv
    cases hfind : db.students.find? (fun s => s.id == sid) with
    | none => simp [update_student_payment, hfind, PayResult.isError]
    | some s =>
      cases pt with
      | missing => simp [update_student_payment, hfind, PayResult.isError]
      | malformed => simp [update_student_payment, hfind, PayResult.isError]
      | parsed d =>
        exact absurd ⟨by simp [hfind], ⟨d, rfl⟩⟩ hinv

/-- Closed witness for C7: an add request with the name absent commits nothing
and errors; a payment update for an id absent from an empty store returns the
store unchanged and errors. -/
theorem claim_C7_witness :
    ((add_student ⟨[], [], 0, 0⟩
        ⟨none, none, none, RawField.parsed ⟨2024, 1, 1⟩,
          RawField.parsed ⟨2024, 1, 31⟩, some 10⟩).1 = [] ∧
      (add_student ⟨[], [], 0, 0⟩
        ⟨none, none, none, RawField.parsed ⟨2024, 1, 1⟩,
          RawField.parsed ⟨2024, 1, 31⟩, some 10⟩).2.isError = true) ∧
    ((update_student_payment ⟨[], [], 0, 0⟩ 0 RawField.missing).1 = ⟨[], [], 0, 0⟩ ∧
      (update_student_payment ⟨[], [], 0, 0⟩ 0 RawField.missing).2.isError = true) :=
  ⟨(claim_C7 ⟨[], [], 0, 0⟩
      ⟨none, none, none, RawField.parsed ⟨2024, 1, 1⟩,
        RawField.parsed ⟨2024, 1, 31⟩, some 10⟩ 0 RawField.missing).1
      (fun h => absurd h.1 (by decide)),
   (claim_C7 ⟨[], [], 0, 0⟩
      ⟨none, none, none, RawField.parsed ⟨2024, 1, 1⟩,
        RawField.parsed ⟨2024, 1, 31⟩, some 10⟩ 0 RawField.missing).2
      (fun h => absurd h.1 (by decide))⟩

/-- C8.  `update_student_payment` on an existing student id and a parsed
`paid_till` appends exactly one new payment row (all previously existing rows
of every student survive unchanged, in order, as a prefix), leaves the student
table untouched, and returns the new payment. -/
theorem claim_C8 (db : DB) (sid : Nat) (d : Date) (s : Student)
    (hs : db.students.find? (fun x => x.id == sid) = some s) :
    update_student_payment db sid (RawField.parsed d) =
      (⟨db.students, db.payments ++ [⟨db.nextPid, s.id, d⟩], db.nextSid, db.nextPid + 1⟩,
       PayResult.updated ⟨db.nextPid, s.id, d⟩) := by
  simp only [update_student_payment, hs]

/-- Closed witness for C8: recording a payment for student 0 appends one row
with the next payment id and leaves the prior two rows and the student table
unchanged. -/
theorem claim_C8_witness :
    update_student_payment ⟨[⟨0, "A", none, none, ⟨2024, 1, 1⟩, none, 10⟩],
        [⟨0, 0, ⟨2024, 1, 31⟩⟩, ⟨1, 3, ⟨2024, 2, 29⟩⟩], 1, 2⟩ 0
        (RawField.parsed ⟨2024, 3, 31⟩) =
      (⟨[⟨0, "A", none, none, ⟨2024, 1, 1⟩, none, 10⟩],
        [⟨0, 0, ⟨2024, 1, 31⟩⟩, ⟨1, 3, ⟨2024, 2, 29⟩⟩] ++ [⟨2, 0, ⟨2024, 3, 31⟩⟩], 1, 3⟩,
       PayResult.updated ⟨2, 0, ⟨2024, 3, 31⟩⟩) :=
  claim_C8 ⟨[⟨0, "A", none, none, ⟨2024, 1, 1⟩, none, 10⟩],
      [⟨0, 0, ⟨2024, 1, 31⟩⟩, ⟨1, 3, ⟨2024, 2, 29⟩⟩], 1, 2⟩ 0 ⟨2024, 3, 31⟩
    ⟨0, "A", none, none, ⟨2024, 1, 1⟩, none, 10⟩ rfl

/-- Unrolling the filtering loop of `get_pending_students`: the Python
truthiness test `pending_amount and pending_amount > 0` is equivalent to
`0 < pending_amount`. -/
theorem get_pending_students_aux (db : DB) (today : Date) (l : List Student) :
    ∀ acc : List StudentView,
      l.foldl (fun acc s =>
        let v := s.to_dict db today
        if v.pending_amount ≠ 0 ∧ 0 < v.pending_amount then acc ++ [v] else acc) acc
      = acc ++ (l.map (fun s => s.to_dict db today)).filter
          (fun v => decide (0 < v.pending_amount)) := by
  induction l with
  | nil => intro acc; simp
  | cons a t ih =>
    intro acc
    simp only [List.foldl_cons, List.map_cons, List.filter_cons]
    rw [ih]
    by_cases h : 0 < (a.to_dict db today).pending_amount
    · have hne : (a.to_dict db today).pending_amount ≠ 0 := ne_of_gt h
      simp [h, hne]
    · simp [h]

/-- C9.  `get_pending_students` returns exactly the `to_dict` views of the
students whose pending amount is strictly positive, in the order of the
underlying student listing. -/
theorem claim_C9 (db : DB) (today : Date) :
    get_pending_students db today =
      (db.students.map (fun s => s.to_dict db today)).filter
        (fun v => decide (0 < v.pending_amount)) := by
  have h := get_pending_students_aux db today db.students []
  simpa [get_pending_students] using h

/-- C10.  The read path is deterministic: the composite view of a student is a
function of the student's own payment rows and the reference date alone.  Two
stores agreeing on the student's payments (in particular, the same store read
twice with no intervening payment) yield identical views; the calculator
itself is a pure function of (fee, admission, latest paid-till, reference
date) by construction. -/
theorem claim_C10 (s : Student) (db db' : DB) (today : Date)
    (h : db.payments.filter (fun p => p.student_id == s.id) =
         db'.payments.filter (fun p => p.student_id == s.id)) :
    s.to_dict db today = s.to_dict db' today := by
  simp only [Student.to_dict, latestPaidTill, h]

/-- Closed witness for C10: a second store with an extra payment row belonging
to a different student (id 5) produces the identical view for student 0. -/
theorem claim_C10_witness :
    Student.to_dict ⟨0, "A", none, none, ⟨2024, 1, 1⟩, none, 10⟩
        ⟨[], [⟨0, 0, ⟨2024, 1, 31⟩⟩], 0, 1⟩ ⟨2024, 5, 2⟩ =
      Student.to_dict ⟨0, "A", none, none, ⟨2024, 1, 1⟩, none, 10⟩
        ⟨[], [⟨0, 0, ⟨2024, 1, 31⟩⟩, ⟨1, 5, ⟨2024, 3, 31⟩⟩], 0, 2⟩ ⟨2024, 5, 2⟩ :=
  claim_C10 ⟨0, "A", none, none, ⟨2024, 1, 1⟩, none, 10⟩
    ⟨[], [⟨0, 0, ⟨2024, 1, 31⟩⟩], 0, 1⟩
    ⟨[], [⟨0, 0, ⟨2024, 1, 31⟩⟩, ⟨1, 5, ⟨2024, 3, 31⟩⟩], 0, 2⟩ ⟨2024, 5, 2⟩ rfl
